import Mathlib

/-!
Verification of the apx unpacker (scripts/unpack_apx.py): a shallow embedding
of its data model, parsing functions, identifier resolver and exporter,
together with theorems settling the specification claims.

Modelling conventions:
* Python `int` is Lean `Int` (arbitrary precision in both).
* Python `str` is Lean `String`; character classification of the regular
  expressions and `str.lower` is modelled exactly on the ASCII range, plus the
  two non-ASCII codepoints U+0130 and U+0307 that the theorems exercise.
* Fallible code (Python exceptions from `int(...)`, `float(...)`, list
  indexing) is modelled with `Except String`.
* XML access mirrors `xml.etree.ElementTree`: `findtext` searches direct
  children and yields the empty string for a present element without text.
-/

set_option maxHeartbeats 1000000
set_option maxRecDepth 8192

/-- An XML element as exposed by ElementTree: tag, attributes, text, children. -/
inductive XElem where
  | mk (tag : String) (attrs : List (String × String)) (text : Option String)
      (children : List XElem)

def XElem.tag : XElem → String
  | .mk t _ _ _ => t

def XElem.attrs : XElem → List (String × String)
  | .mk _ a _ _ => a

def XElem.text : XElem → Option String
  | .mk _ _ tx _ => tx

def XElem.children : XElem → List XElem
  | .mk _ _ _ cs => cs

/-- ElementTree `elem.findall(tag)`: direct children with the tag, in order. -/
def findall (e : XElem) (tag : String) : List XElem :=
  e.children.filter (fun c => c.tag == tag)

/-- ElementTree `elem.find(tag)`: first direct child with the tag. -/
def findChild (e : XElem) (tag : String) : Option XElem :=
  e.children.find? (fun c => c.tag == tag)

/-- ElementTree `elem.findtext(tag)` with default `None`: text of the first
matching child; a present element whose text is `None` yields `""`. -/
def findtext (e : XElem) (tag : String) : Option String :=
  (findChild e tag).map (fun c => c.text.getD "")

/-- ElementTree `elem.findtext(tag, default)` with a string default. -/
def findtextD (e : XElem) (tag : String) (dflt : String) : String :=
  (findtext e tag).getD dflt

/-- ElementTree `elem.get(key)`: attribute lookup, `None` when absent. -/
def attrGet (e : XElem) (key : String) : Option String :=
  (e.attrs.find? (fun p => p.1 == key)).map (fun p => p.2)

/-- ElementTree `elem.get(key, default)`. -/
def attrGetD (e : XElem) (key : String) (dflt : String) : String :=
  (attrGet e key).getD dflt

/-- Python truthiness of `elem.text or dflt`: `None` and `""` are falsy. -/
def textOr (e : XElem) (dflt : String) : String :=
  match e.text with
  | some t => if t = "" then dflt else t
  | none => dflt

/-- Python truthiness of an optional string: `None` and `""` are falsy. -/
def truthy : Option String → Bool
  | some s => s ≠ ""
  | none => false

/-- Whitespace for `str.strip()` and the regex class `\s`: on the ASCII range
both match exactly these ten characters.  Non-ASCII Unicode whitespace is not
modelled (no theorem exercises it). -/
def pyIsSpace (c : Char) : Bool :=
  c = ' ' || c = '\t' || c = '\n' || c = '\x0b' || c = '\x0c' || c = '\r' ||
  c = '\x1c' || c = '\x1d' || c = '\x1e' || c = '\x1f'

/-- Strip whitespace from both ends, as Python `str.strip()`. -/
def stripWs (l : List Char) : List Char :=
  ((l.dropWhile pyIsSpace).reverse.dropWhile pyIsSpace).reverse

def digitVal (c : Char) : Option Nat :=
  if '0' ≤ c ∧ c ≤ '9' then some (c.toNat - '0'.toNat) else none

def parseDigitsGo (acc : Nat) : List Char → Option Nat
  | [] => some acc
  | c :: t =>
    match digitVal c with
    | some d => parseDigitsGo (acc * 10 + d) t
    | none => none

/-- A nonempty all-digit run, as the body of a Python decimal int literal.
(PEP 515 underscore grouping and non-ASCII digits are not modelled; no theorem
exercises them.) -/
def parseDigits : List Char → Option Nat
  | [] => none
  | l => parseDigitsGo 0 l

/-- Python `int(s)`: optional surrounding whitespace, optional sign, at least
one digit; anything else raises `ValueError`. -/
def pyInt (s : String) : Except String Int :=
  match stripWs s.data with
  | '+' :: rest =>
    match parseDigits rest with
    | some n => .ok (Int.ofNat n)
    | none => .error ("invalid literal for int: " ++ s)
  | '-' :: rest =>
    match parseDigits rest with
    | some n => .ok (-(Int.ofNat n))
    | none => .error ("invalid literal for int: " ++ s)
  | rest =>
    match parseDigits rest with
    | some n => .ok (Int.ofNat n)
    | none => .error ("invalid literal for int: " ++ s)

def floatDigits (l : List Char) : Bool :=
  l.all (fun c => decide ('0' ≤ c ∧ c ≤ '9'))

/-- Recogniser for the body of a Python float literal:
`digits [. digits] | . digits`, optionally followed by an exponent. -/
def floatBody : List Char → Bool
  | l =>
    let (mant, expPart) := (l.takeWhile (fun c => c ≠ 'e' ∧ c ≠ 'E'),
                            l.dropWhile (fun c => c ≠ 'e' ∧ c ≠ 'E'))
    let mantOk :=
      let intPart := mant.takeWhile (fun c => c ≠ '.')
      match mant.dropWhile (fun c => c ≠ '.') with
      | '.' :: frac =>
        floatDigits intPart && floatDigits frac && (!intPart.isEmpty || !frac.isEmpty)
      | _ => !intPart.isEmpty && floatDigits intPart
    let expOk :=
      match expPart with
      | [] => true
      | _ :: sexp =>
        match sexp with
        | '+' :: ds => !ds.isEmpty && floatDigits ds
        | '-' :: ds => !ds.isEmpty && floatDigits ds
        | ds => !ds.isEmpty && floatDigits ds
    mantOk && expOk

/-- Python `float(s)` viewed as a validator: the numeric value is never needed
by the claims, so the model keeps the accepted literal text.  (The `inf`/`nan`
spellings and underscore grouping are not modelled; no theorem exercises
them.) -/
def pyFloat (s : String) : Except String String :=
  let body :=
    match stripWs s.data with
    | '+' :: rest => rest
    | '-' :: rest => rest
    | rest => rest
  if floatBody body then .ok s else .error ("could not convert string to float: " ++ s)

/-- Keyframe dict built inside `parse_spline`. -/
structure Keyframe where
  time : Int
  values : List Int
  control_pos : List Int
  control_values : List Int
  deriving DecidableEq

/-- Animation spline with keyframes and waveform modulation. -/
structure Spline where
  interpolation : Int := 0
  loop : Int := 0
  waveform : Int := 0
  multiplicative_waveform : Int := 0
  wf_amplitude : Int := 0
  wf_frequency : Int := 0
  wf_randseed : Int := 0
  values : List Int := []
  keys : List Keyframe := []
  deriving DecidableEq

/-- Material or texture generator parameter. -/
structure Parameter where
  guid : String := ""
  name : String := ""
  scope : Int := 0
  param_type : Int := 0
  default_value : Option String := none
  value : Option String := none
  texture_guid : Option String := none
  deriving DecidableEq

/-- A single render pass within a technique. -/
structure ShaderPass where
  name : String := ""
  code : String := ""
  minifiable : Bool := true
  parameters : List Parameter := []
  deriving DecidableEq

/-- A material/render technique with shader passes. -/
structure RenderTechnique where
  guid : String := ""
  name : String := ""
  technique_type : Int := 0
  target_layer : Option String := none
  passes : List ShaderPass := []
  deriving DecidableEq

/-- A procedural texture generator shader. -/
structure TextureGenerator where
  guid : String := ""
  name : String := ""
  code : String := ""
  parameters : List Parameter := []
  deriving DecidableEq

/-- An operator instance in a texture page.  The Python `dict[int, int]`
parameter map is kept as the association list of its insertions. -/
structure TextureOperator where
  guid : String := ""
  x1 : Int := 0
  y1 : Int := 0
  x2 : Int := 0
  y2 : Int := 0
  filter_guid : String := ""
  resolution : Int := 0
  seed : Int := 0
  parameters : List (Int × Int) := []
  deriving DecidableEq

/-- A texture generation page/graph. -/
structure TexturePage where
  guid : String := ""
  name : String := ""
  xres : Int := 8
  yres : Int := 8
  hdr : Bool := false
  operators : List TextureOperator := []
  deriving DecidableEq

/-- A material definition linking name to technique. -/
structure Material where
  guid : String := ""
  name : String := ""
  technique_guid : String := ""
  deriving DecidableEq

/-- A mesh generation filter. -/
structure MeshFilter where
  filter_type : Int := 0
  name : String := ""
  transformations : List (Int × Int) := []
  parameters : List (Int × Int) := []
  enabled : Bool := true
  deriving DecidableEq

/-- An object within a model.  `float_parameter` keeps the accepted literal
text of the Python float, see `pyFloat`. -/
structure ModelObject where
  guid : String := ""
  name : String := ""
  object_type : Int := 0
  transformations : List (Int × Int) := []
  parameters : List (Int × Int) := []
  float_parameter : Option String := none
  parent_guids : List String := []
  cloned_object : Option String := none
  filters : List MeshFilter := []
  deriving DecidableEq

/-- A 3D model definition. -/
structure Model where
  guid : String := ""
  name : String := ""
  objects : List ModelObject := []
  deriving DecidableEq

/-- A spline attached to a clip. -/
structure ClipSpline where
  spline_type : Int := 0
  spline : Option Spline := none
  deriving DecidableEq

/-- Animation data for an object in a specific clip. -/
structure ClipData where
  target_clip : String := ""
  randseed : Int := 0
  turbulence_freq : Int := 0
  splines : List ClipSpline := []
  deriving DecidableEq

/-- An object within a scene. -/
structure SceneObject where
  guid : String := ""
  name : String := ""
  object_type : Int := 0
  clip_data : List ClipData := []
  deriving DecidableEq

/-- An animation clip within a scene. -/
structure Clip where
  guid : String := ""
  name : String := ""
  deriving DecidableEq

/-- A scene definition with objects and clips. -/
structure Scene where
  guid : String := ""
  name : String := ""
  clips : List Clip := []
  objects : List SceneObject := []
  deriving DecidableEq

/-- A timeline event. -/
structure TimelineEvent where
  guid : String := ""
  name : String := ""
  event_type : Int := 0
  pass_index : Int := 0
  start_frame : Int := 0
  end_frame : Int := 0
  target_rt : String := ""
  time_spline : Option Spline := none
  scene_guid : Option String := none
  clip_guid : Option String := none
  camera_guid : Option String := none
  subscene_target : Option String := none
  deriving DecidableEq

/-- A render target definition. -/
structure RenderTarget where
  guid : String := ""
  name : String := ""
  resolution : Int := 0
  pixel_format : Int := 0
  is_cubemap : Bool := false
  z_resolution : Int := 0
  hidden : Bool := false
  deriving DecidableEq

/-- A render layer configuration. -/
structure RenderLayer where
  guid : String := ""
  name : String := ""
  render_targets : List String := []
  omit_depth : Bool := false
  clear_targets : Bool := false
  is_voxelizer : Bool := false
  ignore_helpers : Bool := false
  pickable : Bool := false
  deriving DecidableEq

/-- PARAM_TYPE_NAMES table. -/
def PARAM_TYPE_NAMES : List (Int × String) :=
  [(0, "Float"), (1, "Color"), (2, "ZMode"), (3, "ZFunction"), (4, "FillMode"),
   (5, "CullMode"), (6, "RenderPriority"), (7, "Texture0"), (8, "Texture1"),
   (9, "Texture2"), (10, "Texture3"), (11, "Texture4"), (12, "Texture5"),
   (13, "Texture6"), (14, "Texture7"), (15, "BlendMode0"), (16, "BlendMode1"),
   (17, "BlendMode2"), (18, "BlendMode3"), (19, "BlendMode4"), (20, "BlendMode5"),
   (21, "BlendMode6"), (22, "BlendMode7"), (23, "RenderTarget"),
   (24, "ParticleLifeFloat"), (25, "DepthTexture7"), (26, "3DTexture6"),
   (27, "MeshData0"), (28, "MeshData1"), (29, "MeshData2"), (30, "MeshData3"),
   (31, "MeshData4"), (32, "MeshData5"), (33, "MeshData6"), (34, "MeshData7"),
   (35, "ParticleLife"), (36, "LTC1"), (37, "LTC2")]

/-- TECHNIQUE_TYPE_NAMES table. -/
def TECHNIQUE_TYPE_NAMES : List (Int × String) :=
  [(0, "Material"), (1, "PostProcess"), (2, "ShaderToy"), (3, "Particle")]

/-- EVENT_TYPE_NAMES table. -/
def EVENT_TYPE_NAMES : List (Int × String) :=
  [(0, "RenderScene"), (1, "CameraShake"), (2, "Particle"), (3, "CameraOverride"),
   (4, "SubScene"), (5, "RenderDemo"), (6, "RenderDemo"), (7, "EnvMapFlip")]

/-- Python `dict.get(k, dflt)` over a table with distinct keys. -/
def tableGet (t : List (Int × String)) (k : Int) (dflt : String) : String :=
  ((t.find? (fun p => p.1 == k)).map (fun p => p.2)).getD dflt

/-- Named HTML character references handled by the model of `html.unescape`.
The full named-entity table of the Python stdlib is not reproduced; every
input exercised by a theorem is free of `&`, where `html.unescape` is the
identity. -/
def htmlEntities : List (List Char × Char) :=
  [("&amp;".data, '&'), ("&lt;".data, '<'), ("&gt;".data, '>'),
   ("&quot;".data, '"'), ("&#39;".data, '\x27'), ("&#x27;".data, '\x27')]

def htmlUnescapeF : Nat → List Char → List Char
  | 0, l => l
  | _ + 1, [] => []
  | fuel + 1, c :: rest =>
    if c = '&' then
      match htmlEntities.find? (fun p => p.1.isPrefixOf (c :: rest)) with
      | some p => p.2 :: htmlUnescapeF fuel ((c :: rest).drop p.1.length)
      | none => c :: htmlUnescapeF fuel rest
    else c :: htmlUnescapeF fuel rest

def htmlUnescape (l : List Char) : List Char :=
  htmlUnescapeF l.length l

/-- Replace every CRLF pair by LF, as Python `replace(CRLF, LF)`. -/
def normalizeCrlf : List Char → List Char
  | [] => []
  | '\r' :: '\n' :: rest => '\n' :: normalizeCrlf rest
  | c :: rest => c :: normalizeCrlf rest

/-- Model of `decode_shader_code`: unescape HTML entities, then normalise the
line endings CRLF and CR to LF. -/
def decode_shader_code (code : String) : String :=
  ⟨((normalizeCrlf (htmlUnescape code.data)).map
      (fun c => if c = '\r' then '\n' else c))⟩

/-- Model of `parse_spline`: one keyframe element. -/
def parse_key (key_elem : XElem) : Except String Keyframe := do
  let time ← pyInt (findtextD key_elem "time" "0")
  let values ← (findall key_elem "value").mapM (fun v => pyInt (textOr v "0"))
  let control_pos ← (findall key_elem "controlpos").mapM (fun cp => pyInt (textOr cp "0"))
  let control_values ← (findall key_elem "controlvalue").mapM (fun cv => pyInt (textOr cv "0"))
  pure { time := time, values := values, control_pos := control_pos,
         control_values := control_values }

/-- Model of `parse_spline`. -/
def parse_spline (elem : XElem) : Except String Spline := do
  let interpolation ← pyInt (findtextD elem "interpolation" "0")
  let lp ← pyInt (findtextD elem "loop" "0")
  let waveform ← pyInt (findtextD elem "waveform" "0")
  let multiplicative_waveform ← pyInt (findtextD elem "multiplicativewaveform" "0")
  let wf_amplitude ← pyInt (findtextD elem "wfamplitude" "0")
  let wf_frequency ← pyInt (findtextD elem "wffrequency" "0")
  let wf_randseed ← pyInt (findtextD elem "wfrandseed" "0")
  let values ← (findall elem "value").mapM (fun v => pyInt (textOr v "0"))
  let keys ← (findall elem "key").mapM parse_key
  pure { interpolation := interpolation, loop := lp, waveform := waveform,
         multiplicative_waveform := multiplicative_waveform,
         wf_amplitude := wf_amplitude, wf_frequency := wf_frequency,
         wf_randseed := wf_randseed, values := values, keys := keys }

/-- Model of `parse_parameter`. -/
def parse_parameter (elem : XElem) : Except String Parameter := do
  let scope ← pyInt (findtextD elem "Scope" "0")
  let param_type ← pyInt (findtextD elem "Type" "0")
  pure { guid := findtextD elem "GUID" "", name := findtextD elem "Name" "",
         scope := scope, param_type := param_type,
         default_value := findtext elem "DefaultValue",
         value := findtext elem "Value",
         texture_guid := findtext elem "TextureGUID" }

/-- Model of `parse_texture_generator`: `None` when the element lacks a truthy
GUID or Name (in that case the Parameter children are never parsed). -/
def parse_texture_generator (elem : XElem) :
    Except String (Option TextureGenerator) := do
  let guid := findtext elem "GUID"
  let name := findtext elem "Name"
  let code_elem := findChild elem "Code"
  if !(truthy guid && truthy name) then
    pure none
  else
    let code :=
      match code_elem with
      | some ce =>
        match ce.text with
        | some t => if t = "" then "" else decode_shader_code t
        | none => ""
      | none => ""
    let params ← (findall elem "Parameter").mapM parse_parameter
    pure (some { guid := guid.getD "", name := name.getD "", code := code,
                 parameters := params })

/-- Model of the per-pass parsing inside `parse_render_technique`. -/
def parse_pass (pass_elem : XElem) : Except String ShaderPass := do
  let code :=
    match findChild pass_elem "Code" with
    | some ce =>
      match ce.text with
      | some t => if t = "" then "" else decode_shader_code t
      | none => ""
    | none => ""
  let params ← (findall pass_elem "Parameter").mapM parse_parameter
  pure { name := findtextD pass_elem "Name" "Unnamed Pass", code := code,
         minifiable := findtextD pass_elem "Minifiable" "1" == "1",
         parameters := params }

/-- Model of `parse_render_technique`. -/
def parse_render_technique (elem : XElem) : Except String RenderTechnique := do
  let technique_type ← pyInt (findtextD elem "Type" "0")
  let passes ← (findall elem "Pass").mapM parse_pass
  pure { guid := findtextD elem "GUID" "", name := findtextD elem "Name" "",
         technique_type := technique_type,
         target_layer := findtext elem "TargetLayer", passes := passes }

/-- Model of `parse_texture_operator`. -/
def parse_texture_operator (elem : XElem) : Except String TextureOperator := do
  let x1 ← pyInt (findtextD elem "x1" "0")
  let y1 ← pyInt (findtextD elem "y1" "0")
  let x2 ← pyInt (findtextD elem "x2" "0")
  let y2 ← pyInt (findtextD elem "y2" "0")
  let resolution ← pyInt (findtextD elem "Resolution" "0")
  let seed ← pyInt (findtextD elem "Seed" "0")
  let params ← (findall elem "Parameter").filterMapM (fun param =>
    match attrGet param "ID", param.text with
    | some pid, some ptext =>
      if ptext = "" then pure none
      else do
        let i ← pyInt pid
        let v ← pyInt ptext
        pure (some (i, v))
    | _, _ => pure none)
  pure { guid := findtextD elem "GUID" "", x1 := x1, y1 := y1, x2 := x2, y2 := y2,
         filter_guid := findtextD elem "Filter" "", resolution := resolution,
         seed := seed, parameters := params }

/-- Model of `parse_texture_page`.  Note the source defaults `xres`/`yres`
to the text `"8"`, not `"0"`. -/
def parse_texture_page (elem : XElem) : Except String TexturePage := do
  let xres ← pyInt (findtextD elem "xres" "8")
  let yres ← pyInt (findtextD elem "yres" "8")
  let ops ← (findall elem "Operator").mapM parse_texture_operator
  pure { guid := findtextD elem "GUID" "", name := findtextD elem "Name" "",
         xres := xres, yres := yres,
         hdr := findtextD elem "hdr" "0" == "1", operators := ops }

/-- Model of `parse_material` (no fallible field). -/
def parse_material (elem : XElem) : Material :=
  { guid := findtextD elem "GUID" "", name := findtextD elem "Name" "",
    technique_guid := findtextD elem "Tech" "" }

/-- Sparse `index`/`value` attribute pairs, as read for transformations and
parameters of mesh filters and model objects. -/
def parseIndexValuePairs (elems : List XElem) : Except String (List (Int × Int)) :=
  elems.filterMapM (fun t =>
    match attrGet t "index", attrGet t "value" with
    | some idx, some val => do
      let i ← pyInt idx
      let v ← pyInt val
      pure (some (i, v))
    | _, _ => pure none)

/-- Model of `parse_mesh_filter`. -/
def parse_mesh_filter (elem : XElem) : Except String MeshFilter := do
  let filter_type ← pyInt (attrGetD elem "Type" "0")
  let transformations ← parseIndexValuePairs (findall elem "transformation")
  let params ← parseIndexValuePairs (findall elem "parameter")
  pure { filter_type := filter_type, name := findtextD elem "Name" "",
         transformations := transformations, parameters := params,
         enabled := findtextD elem "enabled" "1" == "1" }

/-- The all-zero literal denoting "no parent" on a `parentguid` element. -/
def NONE_GUID : String := "NONENONENONENONENONENONENONENONE"

/-- The `floatparameter` read of `parse_model_object`: `if fp:` skips both an
absent element and empty text; non-empty text goes through `float(...)`. -/
def parseFloatParam (o : Option String) : Except String (Option String) :=
  match o with
  | some fp => if fp = "" then pure none else do pure (some (← pyFloat fp))
  | none => pure none

/-- Model of `parse_model_object`. -/
def parse_model_object (elem : XElem) : Except String ModelObject := do
  let object_type ← pyInt (attrGetD elem "Type" "0")
  let transformations ← parseIndexValuePairs (findall elem "transformation")
  let params ← parseIndexValuePairs (findall elem "parameter")
  let float_parameter ← parseFloatParam (findtext elem "floatparameter")
  let parent_guids := (findall elem "parentguid").filterMap (fun pg =>
    match attrGet pg "value" with
    | some v => if v ≠ "" ∧ v ≠ NONE_GUID then some v else none
    | none => none)
  let filters ← (findall elem "Filter").mapM parse_mesh_filter
  pure { guid := findtextD elem "GUID" "", name := findtextD elem "Name" "",
         object_type := object_type, transformations := transformations,
         parameters := params, float_parameter := float_parameter,
         parent_guids := parent_guids,
         cloned_object := findtext elem "clonedobject", filters := filters }

/-- Model of `parse_model`. -/
def parse_model (elem : XElem) : Except String Model := do
  let objs ← (findall elem "Object").mapM parse_model_object
  pure { guid := findtextD elem "GUID" "", name := findtextD elem "Name" "",
         objects := objs }

/-- An optional spline child: `parse_spline(found)` when the element is
present, absent otherwise — the shape shared by `clipspline`/`spline` and the
event `TimeSpline`. -/
def parseOptSpline (o : Option XElem) : Except String (Option Spline) :=
  match o with
  | some se => do pure (some (← parse_spline se))
  | none => pure none

/-- Model of `parse_clip_data`. -/
def parse_clip_data (elem : XElem) : Except String ClipData := do
  let randseed ← pyInt (findtextD elem "randseed" "0")
  let turbulence_freq ← pyInt (findtextD elem "turbulencefreq" "0")
  let splines ← (findall elem "clipspline").mapM (fun cs_elem => do
    let spline_type ← pyInt (attrGetD cs_elem "type" "0")
    let spline ← parseOptSpline (findChild cs_elem "spline")
    pure ({ spline_type := spline_type, spline := spline } : ClipSpline))
  pure { target_clip := attrGetD elem "targetclip" "", randseed := randseed,
         turbulence_freq := turbulence_freq, splines := splines }

/-- Model of `parse_scene_object`. -/
def parse_scene_object (elem : XElem) : Except String SceneObject := do
  let object_type ← pyInt (attrGetD elem "Type" "0")
  let clip_data ← (findall elem "clipdata").mapM parse_clip_data
  pure { guid := findtextD elem "GUID" "", name := findtextD elem "Name" "",
         object_type := object_type, clip_data := clip_data }

/-- Model of `parse_scene`. -/
def parse_scene (elem : XElem) : Except String Scene := do
  let clips := (findall elem "Clip").map (fun clip_elem =>
    ({ guid := findtextD clip_elem "GUID" "",
       name := findtextD clip_elem "Name" "" } : Clip))
  let objs ← (findall elem "Object").mapM parse_scene_object
  pure { guid := findtextD elem "GUID" "", name := findtextD elem "Name" "",
         clips := clips, objects := objs }

/-- Model of `parse_timeline_event`. -/
def parse_timeline_event (elem : XElem) : Except String TimelineEvent := do
  let event_type ← pyInt (findtextD elem "Type" "0")
  let pass_index ← pyInt (findtextD elem "Pass" "0")
  let start_frame ← pyInt (findtextD elem "StartFrame" "0")
  let end_frame ← pyInt (findtextD elem "EndFrame" "0")
  let time_spline ← parseOptSpline (findChild elem "TimeSpline")
  pure { guid := findtextD elem "GUID" "", name := findtextD elem "Name" "",
         event_type := event_type, pass_index := pass_index,
         start_frame := start_frame, end_frame := end_frame,
         target_rt := findtextD elem "TargetRT" "",
         time_spline := time_spline, scene_guid := findtext elem "scene",
         clip_guid := findtext elem "clip", camera_guid := findtext elem "camera",
         subscene_target := findtext elem "subscenetarget" }

/-- Model of `parse_render_target`. -/
def parse_render_target (elem : XElem) : Except String RenderTarget := do
  let resolution ← pyInt (findtextD elem "ResolutionDescriptor" "0")
  let pixel_format ← pyInt (findtextD elem "PixelFormat" "0")
  let z_resolution ← pyInt (findtextD elem "ZResolution" "0")
  pure { guid := findtextD elem "GUID" "", name := findtextD elem "Name" "",
         resolution := resolution, pixel_format := pixel_format,
         is_cubemap := findtextD elem "CubeMap" "0" == "1",
         z_resolution := z_resolution,
         hidden := findtextD elem "HiddenFromTimeline" "0" == "1" }

/-- Model of `parse_render_layer` (no fallible field). -/
def parse_render_layer (elem : XElem) : RenderLayer :=
  { guid := findtextD elem "GUID" "", name := findtextD elem "Name" "",
    render_targets := (findall elem "RenderTarget").filterMap (fun rt =>
      match rt.text with
      | some t => if t = "" then none else some t
      | none => none),
    omit_depth := findtextD elem "OmitDepthBuffer" "0" == "1",
    clear_targets := findtextD elem "ClearRenderTargets" "0" == "1",
    is_voxelizer := findtextD elem "Voxelizer" "0" == "1",
    ignore_helpers := findtextD elem "IgnoreHelperObjects" "0" == "1",
    pickable := findtextD elem "Pickable" "0" == "1" }

/-- Regex class `\w` (Unicode word character) of `sanitize_filename`, exact on
the ASCII range (`[A-Za-z0-9_]`).  Of the non-ASCII codepoints only U+0130
(LATIN CAPITAL LETTER I WITH DOT ABOVE, a letter hence a word character) is
classified, being the only one a theorem exercises; in particular U+0307
COMBINING DOT ABOVE is, as in the Python regex engine, not a word
character. -/
def pyIsWord (c : Char) : Bool :=
  c.isAlphanum || c = '_' || c = 'İ'

/-- Characters kept by `re.sub(r'[^\w\s-]', '', name)`. -/
def keepWsh (c : Char) : Bool :=
  pyIsWord c || pyIsSpace c || c = '-'

def asciiLower (c : Char) : Char :=
  if 'A' ≤ c ∧ c ≤ 'Z' then Char.ofNat (c.toNat + 32) else c

/-- Python `str.lower()` per character, which may expand to several
characters.  Exact on the ASCII range.  U+0130 is the single codepoint of the
whole Basic Multilingual Plane whose full lowercase mapping is longer than one
character: it lowers to `"i"` followed by U+0307; it is the only non-ASCII
mapping a theorem exercises, the remaining codepoints are left unchanged
(their one-to-one lowercase mappings are not reproduced). -/
def pyLowerChar (c : Char) : List Char :=
  if c = 'İ' then ['i', '̇'] else [asciiLower c]

def pyLower (l : List Char) : List Char :=
  l.flatMap pyLowerChar

/-- Fuelled model of `re.sub(r'\[([^\]]+)\]', r'\1', name)`: scan left to
right; at a `[` the pattern matches exactly when at least one non-`]`
character follows and then a `]`; the match is replaced by its inner text and
scanning resumes after it.  Any fuel of at least the list length gives the
fixpoint; `stripBrackets` supplies it. -/
def stripBracketsF : Nat → List Char → List Char
  | 0, l => l
  | _ + 1, [] => []
  | fuel + 1, c :: rest =>
    if c = '[' then
      match rest.dropWhile (fun d => d ≠ ']') with
      | ']' :: tail =>
        let inner := rest.takeWhile (fun d => d ≠ ']')
        if inner.isEmpty then c :: stripBracketsF fuel rest
        else inner ++ stripBracketsF fuel tail
      | _ => c :: stripBracketsF fuel rest
    else c :: stripBracketsF fuel rest

def stripBrackets (l : List Char) : List Char :=
  stripBracketsF l.length l

/-- Fuelled model of `re.sub(r'\s+', '-', name)`: every maximal whitespace run
becomes a single hyphen. -/
def collapseWsF : Nat → List Char → List Char
  | 0, l => l
  | _ + 1, [] => []
  | fuel + 1, c :: rest =>
    if pyIsSpace c then '-' :: collapseWsF fuel (rest.dropWhile pyIsSpace)
    else c :: collapseWsF fuel rest

def collapseWs (l : List Char) : List Char :=
  collapseWsF l.length l

/-- Model of `sanitize_filename`: strip brackets keeping inner text, drop
characters outside word/space/hyphen, strip and collapse whitespace runs to
hyphens, lowercase, fall back to `"unnamed"` when empty. -/
def sanitize_filename (name : String) : String :=
  let a := stripBrackets name.data
  let b := a.filter keepWsh
  let c := collapseWs (stripWs b)
  let d := pyLower c
  if d.isEmpty then "unnamed" else ⟨d⟩

/-- The nine entity collections of `ApxUnpacker`, in source order each. -/
structure Unpacker where
  texgens : List TextureGenerator := []
  techniques : List RenderTechnique := []
  texture_pages : List TexturePage := []
  materials : List Material := []
  models : List Model := []
  scenes : List Scene := []
  events : List TimelineEvent := []
  render_targets : List RenderTarget := []
  render_layers : List RenderLayer := []
  deriving DecidableEq

/-- One dispatch step of `ApxUnpacker._parse`: classify a top-level child by
tag and append the decoded entity; unrecognised tags are tried as texture
generators and silently dropped when that shape is not satisfied. -/
def parseChild (u : Unpacker) (elem : XElem) : Except String Unpacker :=
  if elem.tag = "rendertechnique" then do
    pure { u with techniques := u.techniques ++ [← parse_render_technique elem] }
  else if elem.tag = "rendertarget" then do
    pure { u with render_targets := u.render_targets ++ [← parse_render_target elem] }
  else if elem.tag = "renderlayer" then
    pure { u with render_layers := u.render_layers ++ [parse_render_layer elem] }
  else if elem.tag = "texturepage" then do
    pure { u with texture_pages := u.texture_pages ++ [← parse_texture_page elem] }
  else if elem.tag = "material" then
    pure { u with materials := u.materials ++ [parse_material elem] }
  else if elem.tag = "model" then do
    pure { u with models := u.models ++ [← parse_model elem] }
  else if elem.tag = "scene" then do
    pure { u with scenes := u.scenes ++ [← parse_scene elem] }
  else if elem.tag = "event" then do
    pure { u with events := u.events ++ [← parse_timeline_event elem] }
  else do
    match ← parse_texture_generator elem with
    | some tg => pure { u with texgens := u.texgens ++ [tg] }
    | none => pure u

/-- Model of `ApxUnpacker._parse`: fold the dispatch over the direct children
of the container root. -/
def unpackerParse (root : XElem) : Except String Unpacker :=
  root.children.foldlM parseChild {}

/-- A Python `dict[str, str]` as the list of its insertions; `dget` is
`dict.get`: the last insertion for a key wins. -/
def dget (m : List (String × String)) (k : String) : Option String :=
  (m.reverse.find? (fun p => p.1 == k)).map (fun p => p.2)

/-- Python `dict.get(k, dflt)`. -/
def dgetD (m : List (String × String)) (k : String) (dflt : String) : String :=
  (dget m k).getD dflt

/-- Insertion `m[k] = v`. -/
def dset (m : List (String × String)) (k : String) (v : String) :
    List (String × String) :=
  m ++ [(k, v)]

/-- The GUID → display-name indices of `_build_guid_maps`. -/
structure GuidMaps where
  texgen : List (String × String) := []
  technique : List (String × String) := []
  render_target : List (String × String) := []
  render_layer : List (String × String) := []
  material : List (String × String) := []
  model : List (String × String) := []
  scene : List (String × String) := []
  clip : List (String × String) := []
  deriving DecidableEq

/-- The derived clip map of `_build_guid_maps`: for every scene, for every
clip, insert `clip.guid ↦ "{scene.name}/{clip.name}"`. -/
def build_clip_map (scenes : List Scene) : List (String × String) :=
  scenes.foldl (fun m scene =>
    scene.clips.foldl (fun m clip =>
      dset m clip.guid (scene.name ++ "/" ++ clip.name)) m) []

/-- Model of `ApxUnpacker._build_guid_maps`. -/
def build_guid_maps (u : Unpacker) : GuidMaps :=
  { texgen := u.texgens.map (fun tg => (tg.guid, tg.name)),
    technique := u.techniques.map (fun t => (t.guid, t.name)),
    render_target := u.render_targets.map (fun rt => (rt.guid, rt.name)),
    render_layer := u.render_layers.map (fun rl => (rl.guid, rl.name)),
    material := u.materials.map (fun m => (m.guid, m.name)),
    model := u.models.map (fun m => (m.guid, m.name)),
    scene := u.scenes.map (fun s => (s.guid, s.name)),
    clip := build_clip_map u.scenes }

/-- Python `s[:16]`. -/
def pySlice16 (s : String) : String :=
  ⟨s.data.take 16⟩

/-- Resolution of an operator filter GUID in texture-page export
(`guid_maps['texgen'].get(op['filter_guid'], 'Unknown')`). -/
def filter_name (maps : GuidMaps) (g : String) : String :=
  dgetD maps.texgen g "Unknown"

/-- Resolution of a material technique GUID in materials export. -/
def material_technique_name (maps : GuidMaps) (g : String) : String :=
  dgetD maps.technique g "Unknown"

/-- Resolution of an event target render-target GUID in timeline export. -/
def event_target_rt_name (maps : GuidMaps) (g : String) : String :=
  dgetD maps.render_target g "Unknown"

/-- Resolution of an event scene GUID in timeline export. -/
def event_scene_name (maps : GuidMaps) (g : String) : String :=
  dgetD maps.scene g "Unknown"

/-- Resolution of an event clip GUID in timeline export. -/
def event_clip_name (maps : GuidMaps) (g : String) : String :=
  dgetD maps.clip g "Unknown"

/-- Resolution of a technique target-layer GUID in the shader header
(`guid_maps['render_layer'].get(tech.target_layer, tech.target_layer[:16])`):
the fallback is a 16-character slice of the raw GUID. -/
def technique_layer_name (maps : GuidMaps) (tl : String) : String :=
  dgetD maps.render_layer tl (pySlice16 tl)

/-- Resolution of a render-layer target-list GUID in render-layers export
(`guid_maps['render_target'].get(rt, rt[:16])`). -/
def layer_target_name (maps : GuidMaps) (rt : String) : String :=
  dgetD maps.render_target rt (pySlice16 rt)

/-- The 70-character banner `'='*70`. -/
def eqBanner : String :=
  ⟨List.replicate 70 '='⟩

/-- Display name of a parameter type (`PARAM_TYPE_NAMES.get` with an f-string
default). -/
def param_type_name (t : Int) : String :=
  tableGet PARAM_TYPE_NAMES t ("Type" ++ toString t)

/-- Content of one texture-generator `.hlsl` file. -/
def texgenFileContent (tg : TextureGenerator) : String :=
  let header := "// Texture Generator: " ++ tg.name ++ "\n// GUID: " ++ tg.guid ++ "\n"
  let header := header ++
    (if tg.parameters.isEmpty then ""
     else "// Parameters:\n" ++ String.join (tg.parameters.map (fun p =>
       "//   [" ++ toString p.param_type ++ "] " ++ p.name ++ " (" ++
       param_type_name p.param_type ++ ")\n")))
  header ++ "\n" ++ tg.code

/-- Python list indexing with negative indices; out of range raises
`IndexError`. -/
def pyListGet (l : List String) (i : Int) : Except String String :=
  if 0 ≤ i ∧ i < l.length then .ok (l.getD i.toNat "")
  else if -(l.length : Int) ≤ i ∧ i < 0 then .ok (l.getD (i + l.length).toNat "")
  else .error "list index out of range"

/-- The scope label of a pass parameter:
`['Constant', 'Variable', 'Animated'][p.scope] if p.scope < 3 else
f"Scope{p.scope}"`. -/
def scopeLabel (scope : Int) : Except String String :=
  if scope < 3 then pyListGet ["Constant", "Variable", "Animated"] scope
  else .ok ("Scope" ++ toString scope)

/-- One parameter bullet line of a pass block. -/
def passParamLine (p : Parameter) : Except String String := do
  let scope ← scopeLabel p.scope
  pure ("//   • " ++ p.name ++ " (" ++ param_type_name p.param_type ++ ", " ++
        scope ++ ")\n")

/-- One banner-delimited pass block (pass index `i` counted from 0). -/
def passBlock (i : Nat) (sp : ShaderPass) : Except String String := do
  let paramLines ← sp.parameters.mapM passParamLine
  pure ("// " ++ eqBanner ++ "\n" ++ "// Pass " ++ toString (i + 1) ++ ": " ++
        sp.name ++ "\n" ++ String.join paramLines ++ "// " ++ eqBanner ++ "\n\n" ++
        (if sp.code = "" then "// (no shader code)\n" else sp.code) ++ "\n\n")

/-- Content of one render-technique `.hlsl` file; raises when a pass parameter
scope makes the label indexing raise. -/
def techniqueFileContent (maps : GuidMaps) (tech : RenderTechnique) :
    Except String String := do
  let type_name := tableGet TECHNIQUE_TYPE_NAMES tech.technique_type "Unknown"
  let header := "// Render Technique: " ++ tech.name ++ "\n// Type: " ++
    type_name ++ "\n// GUID: " ++ tech.guid ++ "\n"
  let header := header ++
    (match tech.target_layer with
     | some tl =>
       if tl ≠ "" then "// Target Layer: " ++ technique_layer_name maps tl ++ "\n"
       else ""
     | none => "")
  let header := header ++ "\n"
  let blocks ← tech.passes.enum.mapM (fun p => passBlock p.1 p.2)
  pure (header ++ String.join blocks)

/-- Filesystem effects of `extract`, with paths relative to the output
directory (`mkdir []` is the output root itself; a `mkdir` with `parents=True`
also creates the recorded ancestors).  Structured documents (the per-kind JSON
files and `index.md`) are recorded by path only (`writeDoc`): no claim reads
their content. -/
inductive FsAction where
  | mkdir (path : List String)
  | write (path : List String) (content : String)
  | writeDoc (path : List String)
  deriving DecidableEq

/-- The texture-generator shader files: entities with empty code are
skipped. -/
def texgenActions (tgs : List TextureGenerator) : List FsAction :=
  tgs.filterMap (fun tg =>
    if tg.code = "" then none
    else some (.write ["shaders", "texgen", sanitize_filename tg.name ++ ".hlsl"]
      (texgenFileContent tg)))

/-- The render-technique shader files in trace form: files written before a
raise are kept, the raise aborts the rest. -/
def techniqueActions (maps : GuidMaps) :
    List RenderTechnique → List FsAction × Option String
  | [] => ([], none)
  | t :: ts =>
    if t.passes.all (fun p => p.code = "") then techniqueActions maps ts
    else
      match techniqueFileContent maps t with
      | .error e => ([], some e)
      | .ok c =>
        let r := techniqueActions maps ts
        (.write ["shaders", "materials", sanitize_filename t.name ++ ".hlsl"] c :: r.1,
         r.2)

/-- The structured-document section of `extract` (full mode only): each block
is guarded by nonemptiness of its collection. -/
def jsonActions (u : Unpacker) : List FsAction :=
  (if u.texture_pages.isEmpty then []
   else .mkdir ["textures"] :: u.texture_pages.map (fun page =>
     .writeDoc ["textures", sanitize_filename page.name ++ ".json"])) ++
  (if u.materials.isEmpty then [] else [.writeDoc ["materials.json"]]) ++
  (if u.models.isEmpty then []
   else .mkdir ["models"] :: u.models.map (fun m =>
     .writeDoc ["models", sanitize_filename m.name ++ ".json"])) ++
  (if u.scenes.isEmpty then []
   else .mkdir ["scenes"] :: u.scenes.map (fun s =>
     .writeDoc ["scenes", sanitize_filename s.name ++ ".json"])) ++
  (if u.events.isEmpty then [] else [.writeDoc ["timeline.json"]]) ++
  (if u.render_targets.isEmpty then [] else [.writeDoc ["render_targets.json"]]) ++
  (if u.render_layers.isEmpty then [] else [.writeDoc ["render_layers.json"]])

/-- Model of `ApxUnpacker.extract`: the trace of filesystem actions in source
order together with the raised error, if any.  In shaders-only mode the
function returns right after the shader files. -/
def extractTrace (u : Unpacker) (shaders_only : Bool) :
    List FsAction × Option String :=
  let maps := build_guid_maps u
  let dirActs : List FsAction :=
    [.mkdir [], .mkdir ["shaders", "texgen"], .mkdir ["shaders", "materials"]]
  let tg := texgenActions u.texgens
  let r := techniqueActions maps u.techniques
  match r.2 with
  | some e => (dirActs ++ tg ++ r.1, some e)
  | none =>
    if shaders_only then (dirActs ++ tg ++ r.1, none)
    else (dirActs ++ tg ++ r.1 ++ jsonActions u ++ [.writeDoc ["index.md"]], none)

/-- Content of the first file written at a path. -/
def writtenContent (acts : List FsAction) (path : List String) : Option String :=
  (acts.filterMap (fun a =>
    match a with
    | .write p c => if p == path then some c else none
    | _ => none)).head?

/-- Remainder of the haystack after the first occurrence of the needle. -/
def dropAfterSub (needle : List Char) : List Char → Option (List Char)
  | [] => if needle.isEmpty then some [] else none
  | c :: t =>
    if needle.isPrefixOf (c :: t) then some ((c :: t).drop needle.length)
    else dropAfterSub needle t

/-- Each piece occurs, in order, at non-overlapping positions. -/
def containsInOrder (hay : List Char) : List (List Char) → Bool
  | [] => true
  | n :: ns =>
    match dropAfterSub n hay with
    | some rest => containsInOrder rest ns
    | none => false

def strContainsInOrder (s : String) (pieces : List String) : Bool :=
  containsInOrder s.data (pieces.map String.data)

def strContainsSub (s : String) (piece : String) : Bool :=
  (dropAfterSub piece.data s.data).isSome

/-- Path of a filesystem action. -/
def actionPath : FsAction → List String
  | .mkdir p => p
  | .write p _ => p
  | .writeDoc p => p

/-- An action allowed in shaders-only mode: one of the three directory
creations, or a shader file write under one of the two shader
directories. -/
def shaderAreaOnly (a : FsAction) : Bool :=
  match a with
  | .mkdir p =>
    p == ([] : List String) || p == ["shaders", "texgen"] || p == ["shaders", "materials"]
  | .write p _ =>
    p.length == 3 &&
      (p.take 2 == ["shaders", "texgen"] || p.take 2 == ["shaders", "materials"])
  | .writeDoc _ => false

/-- The end-to-end container of §8: one render technique, nothing else. -/
def glowRoot : XElem :=
  .mk "root" [] none
    [.mk "rendertechnique" [] none
      [.mk "GUID" [] (some "g1") [],
       .mk "Name" [] (some "Glow") [],
       .mk "Type" [] (some "0") [],
       .mk "Pass" [] none
         [.mk "Name" [] (some "Main") [],
          .mk "Code" [] (some "float4 main()\x7breturn 0;\x7d") []]]]

/-- The decoded state of `glowRoot` (the decode succeeds, see
`C5_end_to_end`). -/
def glowU : Unpacker :=
  ((unpackerParse glowRoot).toOption).getD {}

/-- A container whose only child carries non-numeric text in a numeric
field. -/
def badRoot : XElem :=
  .mk "root" [] none
    [.mk "rendertechnique" [] none [.mk "Type" [] (some "abc") []]]

/-- A `rendertechnique` element with one fieldless `Pass` child. -/
def bareTechElem : XElem :=
  .mk "rendertechnique" [] none [.mk "Pass" [] none []]

/-- A spline element carrying both a static value and a keyframe. -/
def bothSplineElem : XElem :=
  .mk "spline" [] none
    [.mk "value" [] (some "5") [],
     .mk "key" [] none
       [.mk "time" [] (some "3") [], .mk "value" [] (some "7") []]]

/-- The decoded form of `bothSplineElem`. -/
def bothSpline : Spline :=
  { values := [5],
    keys := [{ time := 3, values := [7], control_pos := [], control_values := [] }] }

/-- Scene `"Opening"` holding clip `"c1"` named `"Intro"` (§8). -/
def openingScene : Scene :=
  { guid := "s1", name := "Opening", clips := [{ guid := "c1", name := "Intro" }] }

def introClip : Clip :=
  { guid := "c1", name := "Intro" }

/-- A model element with one object carrying a sentinel and a real parent
reference. -/
def c9Elem : XElem :=
  .mk "model" [] none
    [.mk "Object" [] none
      [.mk "GUID" [] (some "o1") [],
       .mk "parentguid" [("value", NONE_GUID)] none [],
       .mk "parentguid" [("value", "p1")] none []]]

/-- The decoded form of `c9Elem`. -/
def c9Model : Model :=
  { guid := "", name := "",
    objects := [{ guid := "o1", parent_guids := ["p1"] }] }

def c9Obj : ModelObject :=
  { guid := "o1", parent_guids := ["p1"] }

/-- A technique whose target layer GUID is absent from every map. -/
def prefTech : RenderTechnique :=
  { guid := "t1", name := "T", technique_type := 0,
    target_layer := some "0123456789abcdefXYZ",
    passes := [{ name := "P", code := "x" }] }

/-- A pass parameter whose scope is below the legal negative range. -/
def badParam : Parameter :=
  { name := "p", scope := -4 }

def badPass : ShaderPass :=
  { name := "P", code := "x", parameters := [badParam] }

/-- A technique with shader code whose parameter scope makes export raise. -/
def badScopeTech : RenderTechnique :=
  { guid := "t2", name := "Bad", passes := [badPass] }

/-- A spline element with a `waveform` field present but no `interpolation`
element. -/
def c1SplineElem : XElem :=
  .mk "spline" [] none
    [.mk "waveform" [] (some "2") [], .mk "value" [] (some "5") []]

/-- The decoded form of `c1SplineElem`: the absent `interpolation` fell back
to 0. -/
def c1Spline : Spline :=
  { waveform := 2, values := [5] }

/-- A character that every stage of `sanitize_filename` leaves unchanged:
ASCII, kept by the word/space/hyphen class, not whitespace, and fixed by
lowercasing.  The output of `sanitize_filename` on ASCII input consists of
such characters, which is what makes the function idempotent there. -/
def isSlugChar (c : Char) : Bool :=
  c.toNat < 128 && keepWsh c && !pyIsSpace c && (pyLowerChar c == [c])

deriving instance DecidableEq for Except

/-! Helper lemmas shared by the claims. -/

theorem except_bind_ok {α β : Type} {e : Except String α} {f : α → Except String β}
    {b : β} : e >>= f = .ok b ↔ ∃ a, e = .ok a ∧ f a = .ok b := by
  cases e <;> simp [Bind.bind, Except.bind]

theorem except_pure_ok {α : Type} {a b : α} :
    (pure a : Except String α) = .ok b ↔ a = b := by
  simp [pure, Except.pure]

theorem except_isOk_false {α : Type} {e : Except String α} :
    e.isOk = false ↔ ∀ a, e ≠ .ok a := by
  cases e <;> simp [Except.isOk, Except.toBool]

theorem except_bind_isOk_false {α β : Type} {e : Except String α}
    {f : α → Except String β} (h : e.isOk = false) : (e >>= f).isOk = false := by
  cases e with
  | ok a => simp [Except.isOk, Except.toBool] at h
  | error err => simp [Bind.bind, Except.bind, Except.isOk, Except.toBool]

theorem mapM_ok_forall {α β : Type} {f : α → Except String β} :
    ∀ {l : List α} {r : List β}, l.mapM f = .ok r → ∀ b ∈ r, ∃ a ∈ l, f a = .ok b := by
  intro l
  induction l with
  | nil =>
    intro r h b hb
    simp only [List.mapM_nil, except_pure_ok] at h
    subst h
    simp at hb
  | cons x xs ih =>
    intro r h b hb
    rw [List.mapM_cons] at h
    rw [except_bind_ok] at h
    obtain ⟨y, hy, h⟩ := h
    rw [except_bind_ok] at h
    obtain ⟨ys, hys, h⟩ := h
    rw [except_pure_ok] at h
    subst h
    rcases List.mem_cons.mp hb with hb | hb
    · exact ⟨x, List.mem_cons_self x xs, hb ▸ hy⟩
    · obtain ⟨a, ha, hfa⟩ := ih hys b hb
      exact ⟨a, List.mem_cons_of_mem x ha, hfa⟩

theorem mapM_isOk_false_of_mem {α β : Type} {f : α → Except String β} {l : List α}
    {a : α} (ha : a ∈ l) (he : (f a).isOk = false) : (l.mapM f).isOk = false := by
  induction l with
  | nil => simp at ha
  | cons x xs ih =>
    rw [List.mapM_cons]
    rcases List.mem_cons.mp ha with rfl | ha
    · exact except_bind_isOk_false he
    · cases hx : f x with
      | error e => simp [Bind.bind, Except.bind, Except.isOk, Except.toBool]
      | ok y =>
        have hxs := ih ha
        simp only [Bind.bind, Except.bind]
        cases hm : xs.mapM f with
        | error e => simp [Except.isOk, Except.toBool]
        | ok r => rw [hm] at hxs; simp [Except.isOk, Except.toBool] at hxs

/-! Claim C1. -/

/-- C1, counterexample: decoding does raise on a malformed child — a
`rendertechnique` whose `Type` element holds the non-numeric text `"abc"`
aborts the decode instead of falling back to `0`. -/
theorem C1_counterexample : (unpackerParse badRoot).isOk = false := by decide

/-- A numeric field read through `int(findtext(tag, '0'))` is 0 whenever its
element is absent, independently of the other children. -/
theorem pyInt_default_zero {e : XElem} {tag : String} {i : Int}
    (habs : findChild e tag = none)
    (h : pyInt (findtextD e tag "0") = .ok i) : i = 0 := by
  have hd : findtextD e tag "0" = "0" := by
    simp [findtextD, findtext, habs]
  rw [hd] at h
  have h0 : pyInt "0" = .ok (0 : Int) := by decide
  rw [h0] at h
  simp only [Except.ok.injEq] at h
  exact h.symm

/-- C1, amended: a numeric field whose source element is absent falls back to
0 and the entity is still produced — shown field by field for arbitrary
elements (spline fields, operator resolution and seed, event type and frames)
and for fieldless elements of every tag through the dispatch; empty text is
field-dependent: a static or keyframe `value` element with absent or empty
text falls back to 0, a texture-operator `Parameter` entry with empty text is
skipped, an empty `floatparameter` stays absent, while a scalar field element
that is present but empty raises, as does invalid (non-numeric) text (see the
counterexample). -/
theorem C1_decode_defaults :
    (∀ (u : Unpacker) (tagName : String),
      (parseChild u (XElem.mk tagName [] none [])).isOk = true) ∧
    (∀ (e : XElem) (s : Spline), parse_spline e = .ok s →
      (findChild e "interpolation" = none → s.interpolation = 0) ∧
      (findChild e "wfrandseed" = none → s.wf_randseed = 0)) ∧
    (∀ (e : XElem) (op : TextureOperator), parse_texture_operator e = .ok op →
      (findChild e "Resolution" = none → op.resolution = 0) ∧
      (findChild e "Seed" = none → op.seed = 0)) ∧
    (∀ (e : XElem) (ev : TimelineEvent), parse_timeline_event e = .ok ev →
      (findChild e "Type" = none → ev.event_type = 0) ∧
      (findChild e "StartFrame" = none → ev.start_frame = 0) ∧
      (findChild e "EndFrame" = none → ev.end_frame = 0)) ∧
    (∀ t : Option String, t = none ∨ t = some "" →
      parse_spline (XElem.mk "spline" [] none [XElem.mk "value" [] t []]) =
        .ok { values := [0] }) ∧
    parse_texture_operator (XElem.mk "Operator" [] none
        [XElem.mk "Parameter" [("ID", "1")] (some "") []]) = .ok { } ∧
    parse_model_object (XElem.mk "Object" [] none
        [XElem.mk "floatparameter" [] (some "") []]) = .ok { } ∧
    (parse_spline (XElem.mk "spline" [] none
        [XElem.mk "interpolation" [] none []])).isOk = false ∧
    parse_spline (XElem.mk "spline" [] none []) =
      .ok { interpolation := 0, loop := 0, waveform := 0,
            multiplicative_waveform := 0, wf_amplitude := 0, wf_frequency := 0,
            wf_randseed := 0, values := [], keys := [] } ∧
    parse_texture_operator (XElem.mk "Operator" [] none []) =
      .ok { guid := "", x1 := 0, y1 := 0, x2 := 0, y2 := 0, filter_guid := "",
            resolution := 0, seed := 0, parameters := [] } ∧
    parse_render_target (XElem.mk "rendertarget" [] none []) =
      .ok { guid := "", name := "", resolution := 0, pixel_format := 0,
            is_cubemap := false, z_resolution := 0, hidden := false } ∧
    parse_timeline_event (XElem.mk "event" [] none []) =
      .ok { guid := "", name := "", event_type := 0, pass_index := 0,
            start_frame := 0, end_frame := 0, target_rt := "",
            time_spline := none, scene_guid := none, clip_guid := none,
            camera_guid := none, subscene_target := none } ∧
    parse_model_object (XElem.mk "Object" [] none []) =
      .ok { guid := "", name := "", object_type := 0, transformations := [],
            parameters := [], float_parameter := none, parent_guids := [],
            cloned_object := none, filters := [] } := by
  refine ⟨fun u tagName => ?_, ?_, ?_, ?_, ?_, by decide, by decide, by decide,
    by decide, by decide, by decide, by decide, by decide⟩
  · simp only [parseChild]
    split_ifs <;> rfl
  · intro e s h
    simp only [parse_spline, except_bind_ok, except_pure_ok] at h
    obtain ⟨i1, h1, i2, h2, i3, h3, i4, h4, i5, h5, i6, h6, i7, h7, vs, hvs,
      ks, hks, hrec⟩ := h
    constructor
    · intro habs
      have h0 := pyInt_default_zero habs h1
      subst h0
      rw [← hrec]
    · intro habs
      have h0 := pyInt_default_zero habs h7
      subst h0
      rw [← hrec]
  · intro e op h
    simp only [parse_texture_operator, except_bind_ok, except_pure_ok] at h
    obtain ⟨x1, h1, y1, h2, x2, h3, y2, h4, res, h5, sd, h6, ps, h7, hrec⟩ := h
    constructor
    · intro habs
      have h0 := pyInt_default_zero habs h5
      subst h0
      rw [← hrec]
    · intro habs
      have h0 := pyInt_default_zero habs h6
      subst h0
      rw [← hrec]
  · intro e ev h
    simp only [parse_timeline_event, except_bind_ok, except_pure_ok] at h
    obtain ⟨et, h1, pi, h2, sf, h3, ef, h4, ts, h5, hrec⟩ := h
    refine ⟨?_, ?_, ?_⟩
    · intro habs
      have h0 := pyInt_default_zero habs h1
      subst h0
      rw [← hrec]
    · intro habs
      have h0 := pyInt_default_zero habs h3
      subst h0
      rw [← hrec]
    · intro habs
      have h0 := pyInt_default_zero habs h4
      subst h0
      rw [← hrec]
  · intro t ht
    rcases ht with rfl | rfl <;> decide

/-- C1, witness: the amended theorem applied at a spline element whose
`interpolation` element is absent while other fields are present, and at a
static value element with empty text. -/
theorem C1_witness :
    c1Spline.interpolation = 0 ∧
    parse_spline (XElem.mk "spline" [] none [XElem.mk "value" [] (some "") []]) =
      .ok { values := [0] } :=
  ⟨(C1_decode_defaults.2.1 c1SplineElem c1Spline (by decide)).1 rfl,
   C1_decode_defaults.2.2.2.2.1 (some "") (Or.inr rfl)⟩

/-! Claim C2. -/

/-- C2, counterexample: a texture page with no `xres`/`yres` elements decodes
to resolution 8×8, not 0×0, and a pass with no `Name` element gets the name
`"Unnamed Pass"`, not the empty string. -/
theorem C2_counterexample :
    (parse_texture_page (XElem.mk "texturepage" [] none [])).toOption.map
        TexturePage.xres = some 8 ∧
    (parse_texture_page (XElem.mk "texturepage" [] none [])).toOption.map
        TexturePage.xres ≠ some 0 ∧
    (parse_render_technique bareTechElem).toOption.map
        (fun t => t.passes.map ShaderPass.name) = some ["Unnamed Pass"] ∧
    (parse_render_technique bareTechElem).toOption.map
        (fun t => t.passes.map ShaderPass.name) ≠ some [""] := by
  refine ⟨by decide, by decide, by decide, by decide⟩

/-- C2, amended: absent numeric fields decode to 0 and absent text fields to
the empty string, with these exceptions: texture-page `xres`/`yres` default
to 8, a pass with no `Name` element gets `"Unnamed Pass"` (and the boolean
defaults `minifiable`/`enabled` are true). -/
theorem C2_defaults :
    parse_texture_page (XElem.mk "texturepage" [] none []) =
      .ok { guid := "", name := "", xres := 8, yres := 8, hdr := false,
            operators := [] } ∧
    parse_render_technique bareTechElem =
      .ok { guid := "", name := "", technique_type := 0, target_layer := none,
            passes := [{ name := "Unnamed Pass", code := "", minifiable := true,
                         parameters := [] }] } ∧
    parse_material (XElem.mk "material" [] none []) =
      { guid := "", name := "", technique_guid := "" } ∧
    parse_mesh_filter (XElem.mk "Filter" [] none []) =
      .ok { filter_type := 0, name := "", transformations := [],
            parameters := [], enabled := true } ∧
    parse_scene (XElem.mk "scene" [] none []) =
      .ok { guid := "", name := "", clips := [], objects := [] } ∧
    parse_render_layer (XElem.mk "renderlayer" [] none []) =
      { guid := "", name := "", render_targets := [], omit_depth := false,
        clear_targets := false, is_voxelizer := false, ignore_helpers := false,
        pickable := false } := by
  refine ⟨by decide, by decide, by decide, by decide, by decide, by decide⟩

/-! Claim C4. -/

/-- C4, counterexample: the technique target-layer reference is not a
render-layer target-list entry, yet an unresolved identity there yields the
16-character prefix of the raw identity, not `"Unknown"` — visible in the
exported header. -/
theorem C4_counterexample :
    technique_layer_name {} "0123456789abcdefXYZ" = "0123456789abcdef" ∧
    technique_layer_name {} "0123456789abcdefXYZ" ≠ "Unknown" ∧
    (techniqueFileContent {} prefTech).toOption.map
        (fun c => strContainsSub c "// Target Layer: 0123456789abcdef\n") =
      some true ∧
    (techniqueFileContent {} prefTech).toOption.map
        (fun c => strContainsSub c "Unknown") = some false := by
  refine ⟨by decide, by decide, by decide, by decide⟩

/-- C4, amended: an identity absent from its map resolves to `"Unknown"` for
operator filter references, material technique references and event
target/scene/clip references, and to the 16-character prefix of the raw
identity for both render-layer target-list entries and the technique
target-layer header. -/
theorem C4_resolution (maps : GuidMaps) (g tl rt : String) :
    (dget maps.texgen g = none → filter_name maps g = "Unknown") ∧
    (dget maps.technique g = none → material_technique_name maps g = "Unknown") ∧
    (dget maps.render_target g = none → event_target_rt_name maps g = "Unknown") ∧
    (dget maps.scene g = none → event_scene_name maps g = "Unknown") ∧
    (dget maps.clip g = none → event_clip_name maps g = "Unknown") ∧
    (dget maps.render_layer tl = none →
      technique_layer_name maps tl = pySlice16 tl) ∧
    (dget maps.render_target rt = none →
      layer_target_name maps rt = pySlice16 rt) := by
  refine ⟨?_, ?_, ?_, ?_, ?_, ?_, ?_⟩ <;>
    (intro h;
     simp [filter_name, material_technique_name, event_target_rt_name,
           event_scene_name, event_clip_name, technique_layer_name,
           layer_target_name, dgetD, h])

/-- C4, witness: the amended theorem applied at an empty map with the two
concrete identities. -/
theorem C4_witness :
    filter_name {} "nonexistent" = "Unknown" ∧
    material_technique_name {} "nonexistent" = "Unknown" ∧
    technique_layer_name {} "0123456789abcdefXYZ" =
      pySlice16 "0123456789abcdefXYZ" := by
  refine ⟨(C4_resolution {} "nonexistent" "t" "r").1 (by decide),
          (C4_resolution {} "nonexistent" "t" "r").2.1 (by decide),
          (C4_resolution {} "g" "0123456789abcdefXYZ" "r").2.2.2.2.2.1 (by decide)⟩

/-! Claim C5. -/

/-- C5: the single-technique container decodes, full extraction raises
nothing, the file `shaders/materials/glow.hlsl` is written with the header
citing `"Glow"`, the type `"Material"`, the identity `"g1"`, a banner,
`"Pass 1: Main"` and the verbatim source in this order, and no
`materials.json` is ever touched. -/
theorem C5_end_to_end :
    unpackerParse glowRoot = .ok glowU ∧
    (extractTrace glowU false).2 = none ∧
    (writtenContent (extractTrace glowU false).1
        ["shaders", "materials", "glow.hlsl"]).isSome = true ∧
    strContainsInOrder
      ((writtenContent (extractTrace glowU false).1
          ["shaders", "materials", "glow.hlsl"]).getD "")
      ["// Render Technique: Glow", "// Type: Material", "// GUID: g1",
       "// " ++ eqBanner, "// Pass 1: Main", "float4 main()\x7breturn 0;\x7d"] =
      true ∧
    ((extractTrace glowU false).1.all
        (fun a => actionPath a ≠ ["materials.json"])) = true := by
  refine ⟨by decide, by decide, by decide, by decide, by decide⟩

/-! Claim C10. -/

/-- C10: negative scopes index the three-word label list from the end
(−1 `"Animated"`, −2 `"Variable"`, −3 `"Constant"`), the `"Scope{n}"` label
never arises below 3, scopes of −4 or less raise an index error, and a pass
parameter with such a scope makes the technique file content raise instead of
being produced. -/
theorem C10_scope_labels :
    (scopeLabel (-1) = .ok "Animated" ∧ scopeLabel (-2) = .ok "Variable" ∧
      scopeLabel (-3) = .ok "Constant") ∧
    (∀ s : Int, s ≤ -4 → scopeLabel s = .error "list index out of range") ∧
    (∀ s : Int, s < 3 → ∀ n : Int, scopeLabel s ≠ .ok ("Scope" ++ toString n)) ∧
    (∀ (maps : GuidMaps) (tech : RenderTechnique) (sp : ShaderPass)
        (p : Parameter), sp ∈ tech.passes → p ∈ sp.parameters → p.scope ≤ -4 →
      (techniqueFileContent maps tech).isOk = false) := by
  refine ⟨⟨by decide, by decide, by decide⟩, ?_, ?_, ?_⟩
  · intro s hs
    simp only [scopeLabel, pyListGet]
    rw [if_pos (by omega)]
    rw [if_neg (by simp; omega), if_neg (by simp; omega)]
  · intro s hs n
    simp only [scopeLabel, pyListGet]
    rw [if_pos (by omega)]
    intro h
    split_ifs at h with h1 h2
    · simp only [List.length_cons, List.length_nil] at h1
      have : s = 0 ∨ s = 1 ∨ s = 2 := by omega
      rcases this with rfl | rfl | rfl <;>
        (simp only [Except.ok.injEq] at h;
         have := congrArg String.data h;
         simp [String.data_append] at this)
    · simp only [List.length_cons, List.length_nil] at h2
      have : s = -1 ∨ s = -2 ∨ s = -3 := by omega
      rcases this with rfl | rfl | rfl <;>
        (simp only [Except.ok.injEq] at h;
         have := congrArg String.data h;
         simp [String.data_append] at this)
  · intro maps tech sp p hsp hp hscope
    have hlabel : (scopeLabel p.scope).isOk = false := by
      simp only [scopeLabel, pyListGet]
      rw [if_pos (by omega)]
      rw [if_neg (by simp; omega), if_neg (by simp; omega)]
      rfl
    have hline : (passParamLine p).isOk = false := by
      simp only [passParamLine]
      exact except_bind_isOk_false hlabel
    have hblock : ∀ i : Nat, (passBlock i sp).isOk = false := by
      intro i
      simp only [passBlock]
      exact except_bind_isOk_false (mapM_isOk_false_of_mem hp hline)
    have henum : ∃ i : Nat, (i, sp) ∈ tech.passes.enum := by
      obtain ⟨i, hi⟩ := List.get_of_mem hsp
      refine ⟨i.1, List.mem_enum_iff_getElem?.mpr ?_⟩
      rw [List.getElem?_eq_getElem i.isLt]
      simp only [List.get_eq_getElem] at hi
      rw [hi]
    obtain ⟨i, hi⟩ := henum
    simp only [techniqueFileContent]
    exact except_bind_isOk_false
      (mapM_isOk_false_of_mem hi (by simpa using hblock i))

/-- C10, witness: the scope-label theorem applied at scope −5 and at the
concrete bad-scope technique. -/
theorem C10_witness :
    scopeLabel (-5) = .error "list index out of range" ∧
    (techniqueFileContent {} badScopeTech).isOk = false := by
  refine ⟨C10_scope_labels.2.1 (-5) (by omega),
          C10_scope_labels.2.2.2 {} badScopeTech badPass badParam (by decide)
            (by decide) (by decide)⟩

/-! Claim C7. -/

/-- C7: a decoded Spline carries exactly the decodes of the `value` children
as its static values and exactly the decodes of the `key` children as its
keyframes, in source order and independently of each other: only static
values gives an empty keyframe sequence, only keyframes gives an empty static
sequence, and with both present both are retained without merging. -/
theorem C7_spline_forms (e : XElem) (s : Spline) (h : parse_spline e = .ok s) :
    (findall e "value").mapM (fun v => pyInt (textOr v "0")) = .ok s.values ∧
    (findall e "key").mapM parse_key = .ok s.keys ∧
    (findall e "value" = [] → s.values = []) ∧
    (findall e "key" = [] → s.keys = []) := by
  simp only [parse_spline, except_bind_ok, except_pure_ok] at h
  obtain ⟨i1, h1, i2, h2, i3, h3, i4, h4, i5, h5, i6, h6, i7, h7, vs, hvs, ks,
    hks, hrec⟩ := h
  refine ⟨?_, ?_, ?_, ?_⟩
  · rw [← hrec]; exact hvs
  · rw [← hrec]; exact hks
  · intro hemp
    rw [hemp, List.mapM_nil, except_pure_ok] at hvs
    rw [← hrec]; exact hvs.symm
  · intro hemp
    rw [hemp, List.mapM_nil, except_pure_ok] at hks
    rw [← hrec]; exact hks.symm

/-- C7, witness: the theorem applied to a spline element holding both a
static value and a keyframe. -/
theorem C7_witness :
    (findall bothSplineElem "value").mapM (fun v => pyInt (textOr v "0")) =
      .ok bothSpline.values ∧
    (findall bothSplineElem "key").mapM parse_key = .ok bothSpline.keys ∧
    (findall bothSplineElem "value" = [] → bothSpline.values = []) ∧
    (findall bothSplineElem "key" = [] → bothSpline.keys = []) :=
  C7_spline_forms bothSplineElem bothSpline (by decide)

/-! Claim C9. -/

theorem model_object_no_sentinel (e : XElem) (obj : ModelObject)
    (h : parse_model_object e = .ok obj) : NONE_GUID ∉ obj.parent_guids := by
  simp only [parse_model_object, except_bind_ok, except_pure_ok] at h
  obtain ⟨ot, h1, tr, h2, pr, h3, fp, h4, fl, h5, hrec⟩ := h
  rw [← hrec]
  dsimp only
  intro hmem
  rw [List.mem_filterMap] at hmem
  obtain ⟨pg, hpg, hf⟩ := hmem
  cases hag : attrGet pg "value" with
  | none => simp [hag] at hf
  | some v =>
    simp only [hag] at hf
    split_ifs at hf with hcond
    rw [Option.some.injEq] at hf
    exact hcond.2 hf

/-- C9: a decoded model never stores the all-zero "no parent" sentinel as a
parent-identity reference of any of its objects. -/
theorem C9_no_sentinel (e : XElem) (m : Model) (h : parse_model e = .ok m) :
    ∀ obj ∈ m.objects, NONE_GUID ∉ obj.parent_guids := by
  simp only [parse_model, except_bind_ok, except_pure_ok] at h
  obtain ⟨objs, hobjs, hrec⟩ := h
  intro obj hobj
  rw [← hrec] at hobj
  dsimp only at hobj
  obtain ⟨a, _, hpa⟩ := mapM_ok_forall hobjs obj hobj
  exact model_object_no_sentinel a obj hpa

/-- C9, witness: the theorem applied to a model whose object carries one
sentinel and one real parent reference. -/
theorem C9_witness : NONE_GUID ∉ c9Obj.parent_guids :=
  C9_no_sentinel c9Elem c9Model (by decide) c9Obj (by decide)

/-! Claim C8. -/

theorem foldl_dset_append (pair : Clip → String × String) :
    ∀ (clips : List Clip) (init : List (String × String)),
      clips.foldl (fun m cl => dset m (pair cl).1 (pair cl).2) init =
        init ++ clips.map pair := by
  intro clips
  induction clips with
  | nil => intro init; simp
  | cons cl rest ih =>
    intro init
    simp only [List.foldl_cons, List.map_cons]
    rw [ih]
    simp [dset, List.append_assoc]

theorem build_clip_map_eq (scenes : List Scene) :
    build_clip_map scenes =
      scenes.flatMap (fun sc => sc.clips.map (fun cl =>
        (cl.guid, sc.name ++ "/" ++ cl.name))) := by
  have main : ∀ (ss : List Scene) (init : List (String × String)),
      ss.foldl (fun m scene => scene.clips.foldl (fun m clip =>
        dset m clip.guid (scene.name ++ "/" ++ clip.name)) m) init =
      init ++ ss.flatMap (fun sc => sc.clips.map (fun cl =>
        (cl.guid, sc.name ++ "/" ++ cl.name))) := by
    intro ss
    induction ss with
    | nil => intro init; simp
    | cons sc rest ih =>
      intro init
      simp only [List.foldl_cons, List.flatMap_cons, ih]
      rw [foldl_dset_append (fun cl => (cl.guid, sc.name ++ "/" ++ cl.name))]
      simp [List.append_assoc]
  simpa using main scenes []

theorem dget_isSome_of_mem {m : List (String × String)} {k v : String}
    (hmem : (k, v) ∈ m) : (dget m k).isSome = true := by
  have hfind : (m.reverse.find? (fun p => p.1 == k)).isSome = true :=
    List.find?_isSome.mpr ⟨(k, v), List.mem_reverse.mpr hmem, by simp⟩
  obtain ⟨p, hp⟩ := Option.isSome_iff_exists.mp hfind
  simp [dget, hp]

theorem keys_nodup_value_unique :
    ∀ {m : List (String × String)} {k v w : String},
      (m.map Prod.fst).Nodup → (k, v) ∈ m → (k, w) ∈ m → v = w := by
  intro m
  induction m with
  | nil => intro k v w _ hv; simp at hv
  | cons p t ih =>
    intro k v w hnd hv hw
    rw [List.map_cons, List.nodup_cons] at hnd
    rcases List.mem_cons.mp hv with hv | hv <;>
      rcases List.mem_cons.mp hw with hw | hw
    · simpa using hv.trans hw.symm
    · exfalso
      apply hnd.1
      rw [← hv]
      exact List.mem_map.mpr ⟨(k, w), hw, rfl⟩
    · exfalso
      apply hnd.1
      rw [← hw]
      exact List.mem_map.mpr ⟨(k, v), hv, rfl⟩
    · exact ih hnd.2 hv hw

theorem dget_eq_of_nodup {m : List (String × String)} {k v : String}
    (hnd : (m.map Prod.fst).Nodup) (hmem : (k, v) ∈ m) : dget m k = some v := by
  have hsome := dget_isSome_of_mem hmem
  simp only [dget, Option.isSome_map] at hsome ⊢
  cases hf : m.reverse.find? (fun p => p.1 == k) with
  | none => rw [hf] at hsome; simp at hsome
  | some p =>
    have hpk : p.1 = k := by
      have := List.find?_some hf
      simpa using this
    have hpm : p ∈ m := List.mem_reverse.mp (List.mem_of_find?_eq_some hf)
    have : p.2 = v := by
      apply keys_nodup_value_unique hnd _ hmem
      rw [← hpk]
      exact hpm
    simp [this]

/-- C8: the derived clip map covers every clip of every scene, and — the clip
identities being unique, as the data model guarantees for every kind — maps
each clip identity to `"{scene name}/{clip name}"`. -/
theorem C8_clip_map (scenes : List Scene) (sc : Scene) (cl : Clip)
    (hs : sc ∈ scenes) (hc : cl ∈ sc.clips) :
    (dget (build_clip_map scenes) cl.guid).isSome = true ∧
    (((build_clip_map scenes).map Prod.fst).Nodup →
      dget (build_clip_map scenes) cl.guid =
        some (sc.name ++ "/" ++ cl.name)) := by
  have hmem : (cl.guid, sc.name ++ "/" ++ cl.name) ∈ build_clip_map scenes := by
    rw [build_clip_map_eq]
    rw [List.mem_flatMap]
    exact ⟨sc, hs, List.mem_map.mpr ⟨cl, hc, rfl⟩⟩
  exact ⟨dget_isSome_of_mem hmem, fun hnd => dget_eq_of_nodup hnd hmem⟩

/-- C8, witness: for the scene `"Opening"` with clip `"c1"` named `"Intro"`,
the clip map entry for `"c1"` is `"Opening/Intro"`. -/
theorem C8_witness :
    dget (build_clip_map [openingScene]) "c1" = some "Opening/Intro" := by
  have h := (C8_clip_map [openingScene] openingScene introClip (by decide)
    (by decide)).2 (by decide)
  exact h

/-! Claim C6. -/

theorem mem_texgenActions {tgs : List TextureGenerator} {a : FsAction}
    (ha : a ∈ texgenActions tgs) :
    ∃ n c, a = .write ["shaders", "texgen", n] c := by
  rw [texgenActions, List.mem_filterMap] at ha
  obtain ⟨tg, _, hf⟩ := ha
  split_ifs at hf
  rw [Option.some.injEq] at hf
  exact ⟨sanitize_filename tg.name ++ ".hlsl", texgenFileContent tg, hf.symm⟩

theorem mem_techniqueActions :
    ∀ {maps : GuidMaps} {ts : List RenderTechnique} {a : FsAction},
      a ∈ (techniqueActions maps ts).1 →
      ∃ n c, a = .write ["shaders", "materials", n] c := by
  intro maps ts
  induction ts with
  | nil => intro a ha; simp [techniqueActions] at ha
  | cons t rest ih =>
    intro a ha
    rw [techniqueActions] at ha
    split_ifs at ha
    · exact ih ha
    · cases hc : techniqueFileContent maps t with
      | error e => rw [hc] at ha; simp at ha
      | ok c =>
        rw [hc] at ha
        rcases List.mem_cons.mp ha with rfl | ha
        · exact ⟨sanitize_filename t.name ++ ".hlsl", c, rfl⟩
        · exact ih ha

/-- C6: in shaders-only mode the extraction trace consists solely of the three
directory creations (the output root and the two shader directories) and
shader-file writes under them — in particular no `textures/`, `models/` or
`scenes/` directory, no structured document (`timeline.json`,
`materials.json`, `render_targets.json`, `render_layers.json`) and no index
document, whatever the container held. -/
theorem C6_shaders_only (u : Unpacker) :
    (extractTrace u true).1.all shaderAreaOnly = true := by
  rw [List.all_eq_true]
  intro a ha
  have hmem : a ∈ ([.mkdir [], .mkdir ["shaders", "texgen"],
      .mkdir ["shaders", "materials"]] : List FsAction) ++
      texgenActions u.texgens ++
      (techniqueActions (build_guid_maps u) u.techniques).1 := by
    rw [extractTrace] at ha
    rcases hr : (techniqueActions (build_guid_maps u) u.techniques).2 with _ | e
    · rw [hr] at ha
      simpa using ha
    · rw [hr] at ha
      simpa using ha
  rw [List.mem_append, List.mem_append] at hmem
  rcases hmem with (hd | htg) | htc
  · simp only [List.mem_cons, List.not_mem_nil, or_false] at hd
    rcases hd with rfl | rfl | rfl <;> rfl
  · obtain ⟨n, c, rfl⟩ := mem_texgenActions htg
    rfl
  · obtain ⟨n, c, rfl⟩ := mem_techniqueActions htc
    rfl

/-! Claim C3. -/

/-- Lowercasing an ASCII character kept by the class and different from
whitespace stays inside the slug character set.  The ASCII range is checked
exhaustively. -/
theorem pyLowerChar_closure :
    ∀ c : Char, c.toNat < 128 → keepWsh c = true → pyIsSpace c = false →
      (pyLowerChar c).all isSlugChar = true := by
  intro c hc
  have h : ∀ n ∈ List.range 128, keepWsh (Char.ofNat n) = true →
      pyIsSpace (Char.ofNat n) = false →
      (pyLowerChar (Char.ofNat n)).all isSlugChar = true := by decide
  have h2 := h c.toNat (List.mem_range.mpr hc)
  rwa [Char.ofNat_toNat] at h2

theorem isSlugChar_spec {c : Char} (h : isSlugChar c = true) :
    c ≠ '[' ∧ keepWsh c = true ∧ pyIsSpace c = false ∧ pyLowerChar c = [c] := by
  simp only [isSlugChar, Bool.and_eq_true, beq_iff_eq] at h
  refine ⟨?_, h.1.1.2, ?_, h.2⟩
  · rintro rfl
    have := h.1.1.2
    simp [keepWsh, pyIsWord, pyIsSpace, Char.isAlphanum, Char.isAlpha,
      Char.isUpper, Char.isLower, Char.isDigit] at this
  · have := h.1.2
    simpa using this

theorem stripBracketsF_no_bracket :
    ∀ (fuel : Nat) (l : List Char), (∀ c ∈ l, c ≠ '[') →
      stripBracketsF fuel l = l := by
  intro fuel
  induction fuel with
  | zero => intro l _; rfl
  | succ f ih =>
    intro l hl
    cases l with
    | nil => rfl
    | cons c rest =>
      have hc : c ≠ '[' := hl c (List.mem_cons_self c rest)
      simp only [stripBracketsF, if_neg hc]
      rw [ih rest (fun d hd => hl d (List.mem_cons_of_mem c hd))]

theorem mem_stripBracketsF :
    ∀ (fuel : Nat) (l : List Char) (c : Char),
      c ∈ stripBracketsF fuel l → c ∈ l := by
  intro fuel
  induction fuel with
  | zero => intro l c h; simpa [stripBracketsF] using h
  | succ f ih =>
    intro l c h
    cases l with
    | nil => simp [stripBracketsF] at h
    | cons x rest =>
      simp only [stripBracketsF] at h
      by_cases hx : x = '['
      · rw [if_pos hx] at h
        split at h
        · next tail hd =>
          split_ifs at h with hemp
          · rcases List.mem_cons.mp h with rfl | h
            · exact List.mem_cons_self c rest
            · exact List.mem_cons_of_mem x (ih rest c h)
          · rcases List.mem_append.mp h with h | h
            · exact List.mem_cons_of_mem x
                ((List.takeWhile_sublist _).subset h)
            · have htail : tail ⊆ rest := by
                intro d hd2
                have h1 : tail.Sublist (']' :: tail) :=
                  List.sublist_cons_self ']' tail
                have h2 : (']' :: tail).Sublist rest := by
                  rw [← hd]; exact List.dropWhile_sublist _
                exact h2.subset (h1.subset hd2)
              exact List.mem_cons_of_mem x (htail (ih tail c h))
        · next =>
          rcases List.mem_cons.mp h with rfl | h
          · exact List.mem_cons_self c rest
          · exact List.mem_cons_of_mem x (ih rest c h)
      · rw [if_neg hx] at h
        rcases List.mem_cons.mp h with rfl | h
        · exact List.mem_cons_self c rest
        · exact List.mem_cons_of_mem x (ih rest c h)

theorem collapseWsF_no_space :
    ∀ (fuel : Nat) (l : List Char), (∀ c ∈ l, pyIsSpace c = false) →
      collapseWsF fuel l = l := by
  intro fuel
  induction fuel with
  | zero => intro l _; rfl
  | succ f ih =>
    intro l hl
    cases l with
    | nil => rfl
    | cons c rest =>
      have hc := hl c (List.mem_cons_self c rest)
      simp only [collapseWsF, hc]
      rw [ih rest (fun d hd => hl d (List.mem_cons_of_mem c hd))]
      simp

theorem mem_collapseWsF :
    ∀ (fuel : Nat) (l : List Char), l.length ≤ fuel → ∀ c ∈ collapseWsF fuel l,
      c = '-' ∨ (c ∈ l ∧ pyIsSpace c = false) := by
  intro fuel
  induction fuel with
  | zero =>
    intro l hl c hc
    interval_cases hlen : l.length
    · rw [List.length_eq_zero] at hlen
      subst hlen
      simp [collapseWsF] at hc
  | succ f ih =>
    intro l hl c hc
    cases l with
    | nil => simp [collapseWsF] at hc
    | cons x rest =>
      simp only [List.length_cons, Nat.succ_le_succ_iff] at hl
      simp only [collapseWsF] at hc
      by_cases hx : pyIsSpace x
      · rw [if_pos hx] at hc
        rcases List.mem_cons.mp hc with rfl | hc
        · exact Or.inl rfl
        · have hlen : (rest.dropWhile pyIsSpace).length ≤ f :=
            le_trans (List.dropWhile_sublist pyIsSpace).length_le hl
          rcases ih (rest.dropWhile pyIsSpace) hlen c hc with h | ⟨hmem, hsp⟩
          · exact Or.inl h
          · exact Or.inr ⟨List.mem_cons_of_mem x
              ((List.dropWhile_sublist pyIsSpace).subset hmem), hsp⟩
      · rw [if_neg hx] at hc
        rcases List.mem_cons.mp hc with rfl | hc
        · exact Or.inr ⟨List.mem_cons_self c rest, by simpa using hx⟩
        · rcases ih rest hl c hc with h | ⟨hmem, hsp⟩
          · exact Or.inl h
          · exact Or.inr ⟨List.mem_cons_of_mem x hmem, hsp⟩

theorem dropWhile_eq_self_of_none {p : Char → Bool} {l : List Char}
    (h : ∀ c ∈ l, p c = false) : l.dropWhile p = l := by
  cases l with
  | nil => rfl
  | cons x rest =>
    rw [List.dropWhile_cons, if_neg (by simp [h x (List.mem_cons_self x rest)])]

theorem stripWs_no_space {l : List Char} (h : ∀ c ∈ l, pyIsSpace c = false) :
    stripWs l = l := by
  simp only [stripWs]
  rw [dropWhile_eq_self_of_none h]
  rw [dropWhile_eq_self_of_none (fun c hc => h c (List.mem_reverse.mp hc))]
  exact List.reverse_reverse l

theorem mem_stripWs {l : List Char} {c : Char} (h : c ∈ stripWs l) : c ∈ l := by
  simp only [stripWs, List.mem_reverse] at h
  have h1 := (List.dropWhile_sublist (p := pyIsSpace)
    (l := (l.dropWhile pyIsSpace).reverse)).subset h
  rw [List.mem_reverse] at h1
  exact (List.dropWhile_sublist pyIsSpace).subset h1

theorem pyLower_fixed {l : List Char} (h : ∀ c ∈ l, pyLowerChar c = [c]) :
    pyLower l = l := by
  induction l with
  | nil => rfl
  | cons x rest ih =>
    simp only [pyLower, List.flatMap_cons] at *
    rw [h x (List.mem_cons_self x rest),
        ih (fun d hd => h d (List.mem_cons_of_mem x hd))]
    rfl

/-- Every character of a slug computed from ASCII input is a slug
character. -/
theorem slug_output_chars (s : String) (hs : ∀ c ∈ s.data, c.toNat < 128) :
    ∀ c ∈ (sanitize_filename s).data, isSlugChar c = true := by
  intro c hc
  simp only [sanitize_filename] at hc
  by_cases hemp :
      (pyLower (collapseWs (stripWs ((stripBrackets s.data).filter keepWsh)))).isEmpty
  · rw [if_pos hemp] at hc
    exact List.all_eq_true.mp (by decide) c hc
  · rw [if_neg hemp] at hc
    obtain ⟨d, hd, hcd⟩ := List.mem_flatMap.mp hc
    rcases mem_collapseWsF _ _ (le_refl _) d hd with rfl | ⟨hmem, hsp⟩
    · have : c = '-' := by simpa [pyLowerChar, asciiLower] using hcd
      subst this
      decide
    · have hmem2 := mem_stripWs hmem
      have hkeep : keepWsh d = true := (List.mem_filter.mp hmem2).2
      have hmem3 := mem_stripBracketsF _ _ d (List.mem_filter.mp hmem2).1
      have hascii : d.toNat < 128 := hs d hmem3
      have := List.all_eq_true.mp (pyLowerChar_closure d hascii hkeep hsp) c hcd
      exact this

/-- On a nonempty string of slug characters the slug function is the
identity. -/
theorem slug_fixed (l : List Char) (hne : l ≠ [])
    (hl : ∀ c ∈ l, isSlugChar c = true) : sanitize_filename ⟨l⟩ = ⟨l⟩ := by
  have hspec := fun c hc => isSlugChar_spec (hl c hc)
  have h1 : stripBrackets l = l :=
    stripBracketsF_no_bracket _ l (fun c hc => (hspec c hc).1)
  have h2 : l.filter keepWsh = l :=
    List.filter_eq_self.mpr (fun c hc => (hspec c hc).2.1)
  have h3 : stripWs l = l := stripWs_no_space (fun c hc => (hspec c hc).2.2.1)
  have h4 : collapseWs l = l :=
    collapseWsF_no_space _ l (fun c hc => (hspec c hc).2.2.1)
  have h5 : pyLower l = l := pyLower_fixed (fun c hc => (hspec c hc).2.2.2)
  simp only [sanitize_filename]
  rw [h1, h2, h3, h4, h5]
  rw [if_neg (by simpa [List.isEmpty_iff] using hne)]

theorem slug_ne_nil (s : String) : (sanitize_filename s).data ≠ [] := by
  simp only [sanitize_filename]
  by_cases hemp :
      (pyLower (collapseWs (stripWs ((stripBrackets s.data).filter keepWsh)))).isEmpty
  · rw [if_pos hemp]
    decide
  · rw [if_neg hemp]
    simpa [List.isEmpty_iff] using hemp

/-- C3, counterexample: the slug function is not idempotent on every string —
for the one-character string `"İ"` (U+0130) the first application yields
`"i"` followed by the combining dot U+0307, and the second application strips
the combining dot. -/
theorem C3_counterexample :
    sanitize_filename (sanitize_filename "İ") ≠ sanitize_filename "İ" := by
  decide

theorem string_mk_data (s : String) : (⟨s.data⟩ : String) = s := rfl

/-- C3, amended: the slug function is total, `slug("Fire [Red]") =
"fire-red"`, `slug("") = "unnamed"`, and it is idempotent on every ASCII
string; idempotence fails on full Unicode (see the counterexample). -/
theorem C3_slug :
    sanitize_filename "Fire [Red]" = "fire-red" ∧
    sanitize_filename "" = "unnamed" ∧
    ∀ x : String, (∀ c ∈ x.data, c.toNat < 128) →
      sanitize_filename (sanitize_filename x) = sanitize_filename x := by
  refine ⟨by decide, by decide, ?_⟩
  intro x hx
  have h := slug_fixed (sanitize_filename x).data (slug_ne_nil x)
    (slug_output_chars x hx)
  rwa [string_mk_data] at h

/-- C3, witness: the amended idempotence applied to the ASCII string
`"Fire [Red]"`. -/
theorem C3_witness :
    (∀ c ∈ ("Fire [Red]" : String).data, c.toNat < 128) ∧
    sanitize_filename (sanitize_filename "Fire [Red]") =
      sanitize_filename "Fire [Red]" :=
  ⟨by decide, C3_slug.2.2 "Fire [Red]" (by decide)⟩
